import Mathlib

/-!
Verification of the bit-timing solver of the can-utils crate (`timing_calculator.rs`)
and CAN-FD DLC conversion helpers (`frames.rs`).

The Rust code uses `u32` (`BaudRatePrescalaInnerType`, bit widths, quanta counts),
`u16` (`BitSamplePointInnerType`) and `u8` (`SegmentLengthInnerType`) arithmetic.
We embed machine integers as `Nat` with explicit reduction modulo `2^32` / `2^8`
at every operation whose Rust counterpart can overflow.  Rust integer overflow
panics when debug assertions are enabled and otherwise wraps in two-complement;
the wrapping results below are therefore the release-mode values, and a
subtraction `a - b` with `b > a` (modelled by `u32sub` / `u8sub`) marks a point
where a debug build would panic.
-/

/-- Reduction modulo 2^32, the behaviour of wrapping `u32` arithmetic. -/
def u32Mod (n : Nat) : Nat := n % 4294967296

/-- Reduction modulo 2^8, the behaviour of wrapping `u8` arithmetic. -/
def u8Mod (n : Nat) : Nat := n % 256

/-- Wrapping `u32` subtraction (two-complement): for `a b < 2^32` this is the
release-mode value of the Rust expression `a - b`; when `b > a` the Rust
subtraction has underflowed (debug builds panic there). -/
def u32sub (a b : Nat) : Nat := (a + 4294967296 - b) % 4294967296

/-- Wrapping `u8` subtraction (two-complement), as `u32sub`. -/
def u8sub (a b : Nat) : Nat := (a + 256 - b) % 256

/-- Rust `pub struct BitsPerSecond(u32)` from `timing_calculator.rs`. -/
structure BitsPerSecond where
  val : Nat
deriving DecidableEq

/-- Rust `pub struct MegaHertz(u32)` from `timing_calculator.rs`. -/
structure MegaHertz where
  val : Nat
deriving DecidableEq

/-- Rust `pub struct SegmentLength(SegmentLengthInnerType)` — a `u8` count of time quanta. -/
structure SegmentLength where
  val : Nat
deriving DecidableEq

/-- Rust `pub struct CanTimingLimits` from `timing_calculator.rs`. -/
structure CanTimingLimits where
  max_baud_rate_prescaler : Nat
  max_segment_1_length : SegmentLength
  max_segment_2_length : SegmentLength
  max_jump_width : SegmentLength
deriving DecidableEq

/-- Rust `pub struct CanBitTimingParameters` — one timing solution. -/
structure CanBitTimingParameters where
  baud_rate_prescaler : Nat
  seg1 : SegmentLength
  seg2 : SegmentLength
  jump_width : SegmentLength
deriving DecidableEq

/-- Rust `pub struct BitSamplePoint` — sample point in tenths of a percent (`u16`). -/
structure BitSamplePoint where
  tenths_of_a_percent : Nat
deriving DecidableEq

/-- Constant `BitSamplePoint::MINIMUM_SAMPLE_POINT`. -/
def BitSamplePoint.MINIMUM_SAMPLE_POINT : BitSamplePoint := ⟨500⟩

/-- Constant `BitSamplePoint::MAXIMUM_SAMPLE_POINT`. -/
def BitSamplePoint.MAXIMUM_SAMPLE_POINT : BitSamplePoint := ⟨990⟩

/-- Rust `BitSamplePoint::new`: the body is
`BitSamplePoint { tenths_of_a_percent }` with a TODO comment in place of the
documented sanity check, so every argument is accepted unchanged. -/
def BitSamplePoint.new (tenths_of_a_percent : Nat) : BitSamplePoint :=
  ⟨tenths_of_a_percent⟩

/-- Rust `pub struct CanBitTimingParameterIter` — the iterator state of the solver.  The
borrowed `interface_limits` reference is embedded by value since the Rust code
only ever reads it. -/
structure CanBitTimingParameterIter where
  bit_width : Nat
  jump_width : Nat
  target_sample_point : Nat
  last_attempted_prescaler : Nat
  interface_limits : CanTimingLimits
deriving DecidableEq

/-- Statement `let sample = tq * 1000 / (self.target_sample_point as u32);`
(`timing_calculator.rs` line 90).  The `u32` product `tq * 1000` wraps. -/
def sampleFor (tsp tq : Nat) : Nat := u32Mod (tq * 1000) / tsp

/-- Statement `let seg2 = cmp::max(1, tq - sample) as SegmentLengthInnerType;`
(line 91): wrapping `u32` subtraction, `u32` max, then truncating `as u8` cast. -/
def seg2For (tsp tq : Nat) : Nat := u8Mod (max 1 (u32sub tq (sampleFor tsp tq)))

/-- Statement `let seg1 = tq as SegmentLengthInnerType - seg2 - 1;` (line 92):
truncating cast of `tq` to `u8`, then wrapping `u8` subtractions. -/
def seg1For (tsp tq : Nat) : Nat := u8sub (u8sub (u8Mod tq) (seg2For tsp tq)) 1

/-- One iteration of the `while` body of `CanBitTimingParameterIter::next`
(lines 82-104) for the already-incremented prescaler `p`: `none` models a
`continue`, `some r` models setting `result`. -/
def tryPrescaler (s : CanBitTimingParameterIter) (p : Nat) : Option CanBitTimingParameters :=
  if s.bit_width % p ≠ 0 then none
  else if s.bit_width / p < 8 then none
  else if seg1For s.target_sample_point (s.bit_width / p) > s.interface_limits.max_segment_1_length.val ∨
          seg2For s.target_sample_point (s.bit_width / p) > s.interface_limits.max_segment_2_length.val then none
  else some ⟨p, ⟨seg1For s.target_sample_point (s.bit_width / p)⟩,
             ⟨seg2For s.target_sample_point (s.bit_width / p)⟩, ⟨s.jump_width⟩⟩

/-- Increment `self.last_attempted_prescaler += 1;` (line 81). -/
def bump (s : CanBitTimingParameterIter) : CanBitTimingParameterIter :=
  { s with last_attempted_prescaler := s.last_attempted_prescaler + 1 }

/-- The `while result.is_none() && self.last_attempted_prescaler < max` loop of
`next` (lines 79-105), with the remaining trip count of the loop
`max_baud_rate_prescaler - last_attempted_prescaler` made explicit as fuel:
fuel `0` is exactly the exit condition `last_attempted_prescaler >= max`. -/
def nextLoop : Nat → CanBitTimingParameterIter → Option CanBitTimingParameters × CanBitTimingParameterIter
  | 0, s => (none, s)
  | fuel + 1, s =>
    let s' := bump s
    match tryPrescaler s' s'.last_attempted_prescaler with
    | some r => (some r, s')
    | none => nextLoop fuel s'

/-- Rust `CanBitTimingParameterIter::next` (lines 76-107): runs the search loop from
the current cursor, returning the yielded item (if any) and the state the
mutated iterator is left in. -/
def CanBitTimingParameterIter.next (s : CanBitTimingParameterIter) :
    Option CanBitTimingParameters × CanBitTimingParameterIter :=
  nextLoop (s.interface_limits.max_baud_rate_prescaler - s.last_attempted_prescaler) s

/-- Rust `compute_timing_parameters` (lines 112-124).  `bit_width` is the `u32`
expression `1_000_000 * clock_speed.0 / nominal_bitrate.0` (the product wraps);
note `last_attempted_prescaler` is initialised to `1`. -/
def compute_timing_parameters (clock_speed : MegaHertz) (nominal_bitrate : BitsPerSecond)
    (target_sample_point : BitSamplePoint) (jump_width : SegmentLength)
    (limits : CanTimingLimits) : CanBitTimingParameterIter :=
  { bit_width := u32Mod (1000000 * clock_speed.val) / nominal_bitrate.val
    jump_width := jump_width.val
    target_sample_point := target_sample_point.tenths_of_a_percent
    last_attempted_prescaler := 1
    interface_limits := limits }

/-- Repeatedly calling `next` and collecting the yielded candidates, stopping
at the first `None`; `fuel` bounds the number of calls made. -/
def runIter : Nat → CanBitTimingParameterIter → List CanBitTimingParameters
  | 0, _ => []
  | fuel + 1, s =>
    match CanBitTimingParameterIter.next s with
    | (some r, s') => r :: runIter fuel s'
    | (none, _) => []

/-- Rust `can_fd_dlc_to_byte_count` (`frames.rs` lines 72-81): matches on
`dlc & 0xF` (= `dlc % 16`); the `0...8` arm returns the unmasked `dlc`, the
`9...12` arm computes `8 + 4 * (dlc & 0b111)` (= `dlc % 8`). -/
def can_fd_dlc_to_byte_count (dlc : Nat) : Nat :=
  if dlc % 16 ≤ 8 then dlc
  else if dlc % 16 ≤ 12 then 8 + 4 * (dlc % 8)
  else if dlc % 16 = 13 then 32
  else if dlc % 16 = 14 then 48
  else 64

/-- Rust `byte_count_to_can_fd_dlc` (`frames.rs` lines 90-101): an ordered match on
inclusive ranges (`32` is taken by the `25...32` arm before `32...48`). -/
def byte_count_to_can_fd_dlc (byte_count : Nat) : Nat :=
  if byte_count ≤ 8 then byte_count
  else if byte_count ≤ 12 then 9
  else if byte_count ≤ 16 then 10
  else if byte_count ≤ 20 then 11
  else if byte_count ≤ 24 then 12
  else if byte_count ≤ 32 then 13
  else if byte_count ≤ 48 then 14
  else 15

theorem tryPrescaler_eq_some {s : CanBitTimingParameterIter} {p : Nat} {r : CanBitTimingParameters}
    (h : tryPrescaler s p = some r) :
    s.bit_width % p = 0 ∧ 8 ≤ s.bit_width / p ∧
    seg1For s.target_sample_point (s.bit_width / p) ≤ s.interface_limits.max_segment_1_length.val ∧
    seg2For s.target_sample_point (s.bit_width / p) ≤ s.interface_limits.max_segment_2_length.val ∧
    r = ⟨p, ⟨seg1For s.target_sample_point (s.bit_width / p)⟩,
         ⟨seg2For s.target_sample_point (s.bit_width / p)⟩, ⟨s.jump_width⟩⟩ := by
  unfold tryPrescaler at h
  split at h
  · exact absurd h (by simp)
  · split at h
    · exact absurd h (by simp)
    · split at h
      · exact absurd h (by simp)
      · rename_i h1 h2 h3
        push_neg at h1 h3
        exact ⟨h1, by omega, h3.1, h3.2, (Option.some_inj.mp h).symm⟩

theorem bump_bit_width (s : CanBitTimingParameterIter) : (bump s).bit_width = s.bit_width := rfl

theorem bump_jump_width (s : CanBitTimingParameterIter) : (bump s).jump_width = s.jump_width := rfl

theorem bump_tsp (s : CanBitTimingParameterIter) : (bump s).target_sample_point = s.target_sample_point := rfl

theorem bump_limits (s : CanBitTimingParameterIter) : (bump s).interface_limits = s.interface_limits := rfl

theorem bump_cursor (s : CanBitTimingParameterIter) : (bump s).last_attempted_prescaler = s.last_attempted_prescaler + 1 := rfl

theorem nextLoop_fields : ∀ (fuel : Nat) (s : CanBitTimingParameterIter)
    (o : Option CanBitTimingParameters) (s' : CanBitTimingParameterIter),
    nextLoop fuel s = (o, s') →
    s'.bit_width = s.bit_width ∧ s'.jump_width = s.jump_width ∧
    s'.target_sample_point = s.target_sample_point ∧
    s'.interface_limits = s.interface_limits ∧
    s.last_attempted_prescaler ≤ s'.last_attempted_prescaler ∧
    s'.last_attempted_prescaler ≤ s.last_attempted_prescaler + fuel := by
  intro fuel
  induction fuel with
  | zero =>
    intro s o s' h
    simp only [nextLoop, Prod.mk.injEq] at h
    obtain ⟨-, hs⟩ := h
    subst hs
    simp
  | succ f ih =>
    intro s o s' h
    simp only [nextLoop] at h
    cases htry : tryPrescaler (bump s) (bump s).last_attempted_prescaler with
    | some r =>
      rw [htry] at h
      simp only [Prod.mk.injEq] at h
      obtain ⟨-, hs⟩ := h
      subst hs
      refine ⟨rfl, rfl, rfl, rfl, ?_, ?_⟩ <;> simp [bump_cursor]
    | none =>
      rw [htry] at h
      have := ih (bump s) o s' h
      rw [bump_bit_width, bump_jump_width, bump_tsp, bump_limits, bump_cursor] at this
      obtain ⟨a, b, c, d, e, f2⟩ := this
      exact ⟨a, b, c, d, by omega, by omega⟩

theorem nextLoop_eq_some : ∀ (fuel : Nat) (s : CanBitTimingParameterIter)
    (r : CanBitTimingParameters) (s' : CanBitTimingParameterIter),
    nextLoop fuel s = (some r, s') →
    s.last_attempted_prescaler < s'.last_attempted_prescaler ∧
    tryPrescaler s' s'.last_attempted_prescaler = some r := by
  intro fuel
  induction fuel with
  | zero =>
    intro s r s' h
    simp only [nextLoop, Prod.mk.injEq] at h
    exact absurd h.1 (by simp)
  | succ f ih =>
    intro s r s' h
    simp only [nextLoop] at h
    cases htry : tryPrescaler (bump s) (bump s).last_attempted_prescaler with
    | some r2 =>
      rw [htry] at h
      simp only [Prod.mk.injEq, Option.some_inj] at h
      obtain ⟨hr, hs⟩ := h
      subst hs
      subst hr
      exact ⟨by rw [bump_cursor]; omega, htry⟩
    | none =>
      rw [htry] at h
      have := ih (bump s) r s' h
      rw [bump_cursor] at this
      exact ⟨by omega, this.2⟩

theorem nextLoop_eq_none : ∀ (fuel : Nat) (s : CanBitTimingParameterIter)
    (s' : CanBitTimingParameterIter),
    s.interface_limits.max_baud_rate_prescaler ≤ s.last_attempted_prescaler + fuel →
    nextLoop fuel s = (none, s') →
    s'.interface_limits.max_baud_rate_prescaler ≤ s'.last_attempted_prescaler := by
  intro fuel
  induction fuel with
  | zero =>
    intro s s' hle h
    simp only [nextLoop, Prod.mk.injEq] at h
    obtain ⟨-, hs⟩ := h
    subst hs
    omega
  | succ f ih =>
    intro s s' hle h
    simp only [nextLoop] at h
    cases htry : tryPrescaler (bump s) (bump s).last_attempted_prescaler with
    | some r2 =>
      rw [htry] at h
      simp at h
    | none =>
      rw [htry] at h
      exact ih (bump s) s' (by rw [bump_limits, bump_cursor]; omega) h

theorem next_eq_some {s : CanBitTimingParameterIter} {r : CanBitTimingParameters}
    {s' : CanBitTimingParameterIter} (h : CanBitTimingParameterIter.next s = (some r, s')) :
    s.last_attempted_prescaler < s'.last_attempted_prescaler ∧
    s'.last_attempted_prescaler ≤ s.interface_limits.max_baud_rate_prescaler ∧
    s'.bit_width = s.bit_width ∧ s'.jump_width = s.jump_width ∧
    s'.target_sample_point = s.target_sample_point ∧
    s'.interface_limits = s.interface_limits ∧
    r.baud_rate_prescaler = s'.last_attempted_prescaler ∧
    r.jump_width.val = s.jump_width ∧
    s.bit_width % r.baud_rate_prescaler = 0 ∧
    8 ≤ s.bit_width / r.baud_rate_prescaler := by
  unfold CanBitTimingParameterIter.next at h
  have hf := nextLoop_fields _ _ _ _ h
  have hs := nextLoop_eq_some _ _ _ _ h
  obtain ⟨hbw, hjw, htsp, hlim, hc1, hc2⟩ := hf
  obtain ⟨hlt, htry⟩ := hs
  have htp := tryPrescaler_eq_some htry
  obtain ⟨hdvd, htq, -, -, hr⟩ := htp
  have hcmax : s'.last_attempted_prescaler ≤ s.interface_limits.max_baud_rate_prescaler := by
    omega
  subst hr
  refine ⟨hlt, hcmax, hbw, hjw, htsp, hlim, rfl, hjw, ?_, ?_⟩
  · simpa [hbw] using hdvd
  · simpa [hbw] using htq

theorem next_eq_none_fixpoint {s s' : CanBitTimingParameterIter}
    (h : CanBitTimingParameterIter.next s = (none, s')) :
    CanBitTimingParameterIter.next s' = (none, s') := by
  have hf := nextLoop_fields _ _ _ _ h
  have hmax := nextLoop_eq_none _ _ _ (by omega) h
  unfold CanBitTimingParameterIter.next
  have h0 : s'.interface_limits.max_baud_rate_prescaler - s'.last_attempted_prescaler = 0 := by
    omega
  rw [h0]
  rfl

theorem runIter_mem_gt : ∀ (fuel : Nat) (s : CanBitTimingParameterIter)
    (r' : CanBitTimingParameters), r' ∈ runIter fuel s →
    s.last_attempted_prescaler < r'.baud_rate_prescaler := by
  intro fuel
  induction fuel with
  | zero =>
    intro s r' h
    simp [runIter] at h
  | succ f ih =>
    intro s r' h
    rw [runIter] at h
    cases hn : CanBitTimingParameterIter.next s with
    | mk o s2 =>
      cases o with
      | none => rw [hn] at h; simp at h
      | some r =>
        rw [hn] at h
        simp only [List.mem_cons] at h
        have hs := next_eq_some hn
        obtain hr | hmem := h
        · subst hr; omega
        · have := ih s2 r' hmem; omega

theorem runIter_pairwise : ∀ (fuel : Nat) (s : CanBitTimingParameterIter),
    ((runIter fuel s).map (fun r => r.baud_rate_prescaler)).Pairwise (· < ·) := by
  intro fuel
  induction fuel with
  | zero => intro s; simp [runIter]
  | succ f ih =>
    intro s
    rw [runIter]
    cases hn : CanBitTimingParameterIter.next s with
    | mk o s2 =>
      cases o with
      | none => simp
      | some r =>
        simp only [List.map_cons]
        refine List.pairwise_cons.mpr ⟨?_, ih s2⟩
        intro b hb
        obtain ⟨r', hr', hbeq⟩ := List.mem_map.mp hb
        have h1 := runIter_mem_gt f s2 r' hr'
        have h2 := next_eq_some hn
        omega

theorem runIter_length : ∀ (fuel : Nat) (s : CanBitTimingParameterIter),
    (runIter fuel s).length ≤
      s.interface_limits.max_baud_rate_prescaler - s.last_attempted_prescaler := by
  intro fuel
  induction fuel with
  | zero => intro s; simp [runIter]
  | succ f ih =>
    intro s
    rw [runIter]
    cases hn : CanBitTimingParameterIter.next s with
    | mk o s2 =>
      cases o with
      | none => simp
      | some r =>
        simp only [List.length_cons]
        have h1 := ih s2
        have h2 := next_eq_some hn
        obtain ⟨ha, hb, -, -, -, hlim, -⟩ := h2
        rw [hlim] at h1
        omega

/-- Claim C1 (refuted as stated; the code, not the claim, is wrong).  With
sample point 875 and tq = 80 (bit width 160, prescaler 2): the computed
`sample` is 91, which exceeds tq = 80, so the u32 subtraction `tq - sample`
underflows (panics under debug assertions, wraps otherwise); and with release
(wrapping) semantics the solver can even yield a candidate whose seg2 is 0
(bit width 512, sample point 500, prescaler 2), contradicting seg2 >= 1. -/
theorem C1_sample_subtraction_underflows :
    sampleFor 875 80 = 91 ∧ 80 < sampleFor 875 80 ∧ seg2For 875 80 = 245 ∧
    (CanBitTimingParameterIter.next
      (compute_timing_parameters ⟨256⟩ ⟨500000⟩ ⟨500⟩ ⟨1⟩ ⟨64, ⟨255⟩, ⟨255⟩, ⟨255⟩⟩)).1
      = some ⟨2, ⟨255⟩, ⟨0⟩, ⟨1⟩⟩ := by
  decide

/-- Claim C2 (refuted as stated; the code, not the claim, is wrong).  With
clock 4 MHz and bitrate 500000 the bit width is 8; prescaler 1 divides 8,
gives tq = 8 >= 8, and its segments (seg1 = 6, seg2 = 1) are within the limits
(6, 1), yet the full run yields nothing: `last_attempted_prescaler` starts at 1
and is incremented before being tested, so prescaler 1 is never examined. -/
theorem C2_prescaler_one_never_examined :
    (compute_timing_parameters ⟨4⟩ ⟨500000⟩ ⟨990⟩ ⟨1⟩ ⟨64, ⟨6⟩, ⟨1⟩, ⟨4⟩⟩).bit_width = 8 ∧
    tryPrescaler (compute_timing_parameters ⟨4⟩ ⟨500000⟩ ⟨990⟩ ⟨1⟩ ⟨64, ⟨6⟩, ⟨1⟩, ⟨4⟩⟩) 1
      = some ⟨1, ⟨6⟩, ⟨1⟩, ⟨1⟩⟩ ∧
    runIter 64 (compute_timing_parameters ⟨4⟩ ⟨500000⟩ ⟨990⟩ ⟨1⟩ ⟨64, ⟨6⟩, ⟨1⟩, ⟨4⟩⟩) = [] := by
  decide

/-- Claim C3, counterexample: at clock 80 MHz, bitrate 500000, sample point
875, limits (64, 78, 1), the iterator yields no candidate at all — in
particular its first result is not the claimed prescaler-2 candidate with
seg1 = 78 and seg2 = 1. -/
theorem C3_counterexample :
    (CanBitTimingParameterIter.next
      (compute_timing_parameters ⟨80⟩ ⟨500000⟩ ⟨875⟩ ⟨1⟩ ⟨64, ⟨78⟩, ⟨1⟩, ⟨4⟩⟩)).1 = none ∧
    runIter 64 (compute_timing_parameters ⟨80⟩ ⟨500000⟩ ⟨875⟩ ⟨1⟩ ⟨64, ⟨78⟩, ⟨1⟩, ⟨4⟩⟩) = [] := by
  decide

/-- Claim C3 as amended: the constructed iterator has bit width 160, and at
prescaler 2 (tq = 80) the computed sample is 91 > 80, so the wrapping
subtraction gives seg2 = 245 and seg1 = 90; those fail the segment limits
(78, 1), as does every other prescaler, and the iterator yields nothing. -/
theorem C3_amended :
    (compute_timing_parameters ⟨80⟩ ⟨500000⟩ ⟨875⟩ ⟨1⟩ ⟨64, ⟨78⟩, ⟨1⟩, ⟨4⟩⟩).bit_width = 160 ∧
    sampleFor 875 80 = 91 ∧ seg2For 875 80 = 245 ∧ seg1For 875 80 = 90 ∧
    (CanBitTimingParameterIter.next
      (compute_timing_parameters ⟨80⟩ ⟨500000⟩ ⟨875⟩ ⟨1⟩ ⟨64, ⟨78⟩, ⟨1⟩, ⟨4⟩⟩)).1 = none := by
  decide

/-- Claim C4, counterexample: at clock 80 MHz, bitrate 500000, sample point
875, permissive limits (64, 255, 255), the first yielded candidate has
seg1 = 90 < seg2 = 245 and 1 + seg1 + seg2 = 336, not bit_width / prescaler
= 80. -/
theorem C4_counterexample :
    (CanBitTimingParameterIter.next
      (compute_timing_parameters ⟨80⟩ ⟨500000⟩ ⟨875⟩ ⟨1⟩ ⟨64, ⟨255⟩, ⟨255⟩, ⟨255⟩⟩)).1
      = some ⟨2, ⟨90⟩, ⟨245⟩, ⟨1⟩⟩ ∧
    ¬ (245 ≤ 90) ∧ 1 + 90 + 245 ≠ 160 / 2 := by
  decide

/-- Claim C4 as amended: the prescaler of every yielded candidate evenly divides
the bit width (and tq = bit_width / prescaler is at least 8), but
seg1 >= seg2 >= 1 and 1 + seg1 + seg2 = bit_width / prescaler do not hold of
every yielded candidate: the concrete first candidate above has
seg1 = 90 < seg2 = 245. -/
theorem C4_amended :
    (∀ (s : CanBitTimingParameterIter) (r : CanBitTimingParameters)
       (s' : CanBitTimingParameterIter),
      CanBitTimingParameterIter.next s = (some r, s') →
      s.bit_width % r.baud_rate_prescaler = 0 ∧ 8 ≤ s.bit_width / r.baud_rate_prescaler) ∧
    ((CanBitTimingParameterIter.next
      (compute_timing_parameters ⟨80⟩ ⟨500000⟩ ⟨875⟩ ⟨1⟩ ⟨64, ⟨255⟩, ⟨255⟩, ⟨255⟩⟩)).1
      = some ⟨2, ⟨90⟩, ⟨245⟩, ⟨1⟩⟩ ∧ 90 < 245) := by
  constructor
  · intro s r s' h
    have := next_eq_some h
    exact ⟨this.2.2.2.2.2.2.2.2.1, this.2.2.2.2.2.2.2.2.2⟩
  · constructor
    · decide
    · decide

/-- Witness for C4: applying the amended theorem at the concrete iterator state
whose first candidate has prescaler 2 shows 160 is evenly divided by it. -/
theorem C4_witness :
    (compute_timing_parameters ⟨80⟩ ⟨500000⟩ ⟨875⟩ ⟨1⟩ ⟨64, ⟨255⟩, ⟨255⟩, ⟨255⟩⟩).bit_width
      % (2 : Nat) = 0 :=
  (C4_amended.1 (compute_timing_parameters ⟨80⟩ ⟨500000⟩ ⟨875⟩ ⟨1⟩ ⟨64, ⟨255⟩, ⟨255⟩, ⟨255⟩⟩)
    ⟨2, ⟨90⟩, ⟨245⟩, ⟨1⟩⟩ ⟨160, 1, 875, 2, ⟨64, ⟨255⟩, ⟨255⟩, ⟨255⟩⟩⟩ (by decide)).1

/-- Claim C5 (confirmed): across any sequence of `next` calls (modelled by
`runIter`), the prescalers of the yielded candidates are pairwise strictly
increasing in yield order; in particular no prescaler is yielded twice. -/
theorem C5_prescalers_strictly_increasing (fuel : Nat) (s : CanBitTimingParameterIter) :
    ((runIter fuel s).map (fun r => r.baud_rate_prescaler)).Pairwise (· < ·) :=
  runIter_pairwise fuel s

/-- Witness for C5 at a concrete iterator that yields several candidates. -/
theorem C5_witness :
    ((runIter 64 (compute_timing_parameters ⟨80⟩ ⟨500000⟩ ⟨875⟩ ⟨1⟩
        ⟨64, ⟨255⟩, ⟨255⟩, ⟨255⟩⟩)).map (fun r => r.baud_rate_prescaler)).Pairwise (· < ·) :=
  C5_prescalers_strictly_increasing 64
    (compute_timing_parameters ⟨80⟩ ⟨500000⟩ ⟨875⟩ ⟨1⟩ ⟨64, ⟨255⟩, ⟨255⟩, ⟨255⟩⟩)

/-- Claim C6 (refuted as stated; the code, not the claim, is wrong):
`BitSamplePoint::new` performs no range validation at all — its body is the
bare constructor under a TODO comment — so arguments outside [500, 990], such
as 0 and 1000, are accepted unchanged instead of failing with a RangeError. -/
theorem C6_new_accepts_out_of_range :
    BitSamplePoint.new 0 = ⟨0⟩ ∧ BitSamplePoint.new 1000 = ⟨1000⟩ ∧
    ∀ t : Nat, BitSamplePoint.new t = ⟨t⟩ :=
  ⟨rfl, rfl, fun _ => rfl⟩

/-- Witness for C6: the theorem applied at the in-range argument 875 — even
there the constructor is the identity, with no checking anywhere. -/
theorem C6_witness : BitSamplePoint.new 875 = ⟨875⟩ :=
  C6_new_accepts_out_of_range.2.2 875

/-- Claim C7, counterexample: the round trip holds at the exact DLC code 9
(byte count 12 maps back to DLC 9), contradicting the claim that it holds for
no code in 9..15. -/
theorem C7_counterexample :
    byte_count_to_can_fd_dlc (can_fd_dlc_to_byte_count 9) = 9 := by decide

/-- Claim C7 as amended: over the exact DLC codes 0..15, the round trip
`byte_count_to_can_fd_dlc (can_fd_dlc_to_byte_count n) = n` holds for every
code, 9..15 included: the canonical byte count of each code maps back to it. -/
theorem C7_amended :
    ∀ n : Nat, n < 16 → byte_count_to_can_fd_dlc (can_fd_dlc_to_byte_count n) = n := by
  decide

/-- Witness for C7 at the DLC code 13 (byte count 32). -/
theorem C7_witness : byte_count_to_can_fd_dlc (can_fd_dlc_to_byte_count 13) = 13 :=
  C7_amended 13 (by decide)

/-- Claim C8 (confirmed): every candidate yielded by `next` — from any iterator
state, with no condition relating the jump width to `max_jump_width` — carries
exactly the jump width stored in the state, which `next` also leaves unchanged; and
`compute_timing_parameters` stores the caller's jump width unmodified. -/
theorem C8_jump_width_passed_through :
    (∀ (s : CanBitTimingParameterIter) (r : CanBitTimingParameters)
       (s' : CanBitTimingParameterIter),
      CanBitTimingParameterIter.next s = (some r, s') →
      r.jump_width.val = s.jump_width ∧ s'.jump_width = s.jump_width) ∧
    (∀ (clock : MegaHertz) (bitrate : BitsPerSecond) (sp : BitSamplePoint)
       (w : SegmentLength) (limits : CanTimingLimits),
      (compute_timing_parameters clock bitrate sp w limits).jump_width = w.val) := by
  constructor
  · intro s r s' h
    obtain ⟨-, -, -, hjw, -, -, -, hrjw, -, -⟩ := next_eq_some h
    exact ⟨hrjw, hjw⟩
  · intro clock bitrate sp w limits
    rfl

/-- Witness for C8: a caller-supplied jump width of 200 — far above the
above the interface limit `max_jump_width` of 4 — appears unchanged on the first yielded
candidate. -/
theorem C8_witness :
    (⟨2, ⟨255⟩, ⟨0⟩, ⟨200⟩⟩ : CanBitTimingParameters).jump_width.val = 200 :=
  (C8_jump_width_passed_through.1
    (compute_timing_parameters ⟨256⟩ ⟨500000⟩ ⟨500⟩ ⟨200⟩ ⟨64, ⟨255⟩, ⟨255⟩, ⟨4⟩⟩)
    ⟨2, ⟨255⟩, ⟨0⟩, ⟨200⟩⟩ ⟨512, 200, 500, 2, ⟨64, ⟨255⟩, ⟨255⟩, ⟨4⟩⟩⟩ (by decide)).1

/-- Claim C9 (confirmed): one iterator yields at most `max_baud_rate_prescaler`
candidates however many `next` calls are made (each call terminates by
construction: the trip count of the loop is bounded by the remaining prescaler
range), and once `next` has returned `none` the iterator stays exhausted:
every subsequent call returns `none` with the state unchanged. -/
theorem C9_finite_and_stays_exhausted :
    (∀ (clock : MegaHertz) (bitrate : BitsPerSecond) (sp : BitSamplePoint)
       (w : SegmentLength) (limits : CanTimingLimits) (fuel : Nat),
      (runIter fuel (compute_timing_parameters clock bitrate sp w limits)).length ≤
        limits.max_baud_rate_prescaler) ∧
    (∀ (s s' : CanBitTimingParameterIter),
      CanBitTimingParameterIter.next s = (none, s') →
      CanBitTimingParameterIter.next s' = (none, s')) := by
  constructor
  · intro clock bitrate sp w limits fuel
    have h := runIter_length fuel (compute_timing_parameters clock bitrate sp w limits)
    have h1 : (compute_timing_parameters clock bitrate sp w limits).interface_limits
        = limits := rfl
    have h2 : (compute_timing_parameters clock bitrate sp w limits).last_attempted_prescaler
        = 1 := rfl
    rw [h1, h2] at h
    omega
  · intro s s' h
    exact next_eq_none_fixpoint h

/-- Witness for C9: the exhausted state reached from the concrete scenario of
C3 (cursor at the prescaler limit 64) maps to itself with no further yields. -/
theorem C9_witness :
    CanBitTimingParameterIter.next ⟨160, 1, 875, 64, ⟨64, ⟨78⟩, ⟨1⟩, ⟨4⟩⟩⟩
      = (none, ⟨160, 1, 875, 64, ⟨64, ⟨78⟩, ⟨1⟩, ⟨4⟩⟩⟩) :=
  C9_finite_and_stays_exhausted.2
    (compute_timing_parameters ⟨80⟩ ⟨500000⟩ ⟨875⟩ ⟨1⟩ ⟨64, ⟨78⟩, ⟨1⟩, ⟨4⟩⟩)
    ⟨160, 1, 875, 64, ⟨64, ⟨78⟩, ⟨1⟩, ⟨4⟩⟩⟩ (by decide)

/-- Claim C10 (confirmed): whenever the low nibble of `dlc` is in 0..8,
`can_fd_dlc_to_byte_count` returns the unmasked `dlc` itself; so `dlc = 16`
comes back as 16 rather than 0, the byte count of the masked code, and inputs such
as 72 produce values beyond the 64-byte CAN-FD payload maximum. -/
theorem C10_returns_unmasked_dlc :
    (∀ dlc : Nat, dlc < 256 → dlc % 16 ≤ 8 → can_fd_dlc_to_byte_count dlc = dlc) ∧
    can_fd_dlc_to_byte_count 16 = 16 ∧
    can_fd_dlc_to_byte_count (16 % 16) = 0 ∧
    can_fd_dlc_to_byte_count 72 = 72 ∧ 64 < can_fd_dlc_to_byte_count 72 := by
  refine ⟨?_, by decide, by decide, by decide, by decide⟩
  intro dlc hlt hnib
  unfold can_fd_dlc_to_byte_count
  simp [hnib]

/-- Witness for C10 at `dlc = 24` (low nibble 8): the byte count is the raw 24. -/
theorem C10_witness : can_fd_dlc_to_byte_count 24 = 24 :=
  C10_returns_unmasked_dlc.1 24 (by decide) (by decide)
